import Mathlib

/-!
Shallow embedding of the Newlanka HRM System backend (src-tauri/src):
the permission model (models.rs), the credential store (lib.rs), the
session-holder state, and the employee/user CRUD commands with audit
logging (commands.rs, auth_commands.rs).

The SQLite database is modelled as lists of typed rows inside an
explicit application state; each Tauri command becomes a function from
state to a result paired with the successor state.
-/

namespace HRM

/-- The eleven-capability permission set (models.rs, `UserPermissions`).
In the database these are stored as eleven integer columns on the
`users` table. -/
structure UserPermissions where
  can_view_employees : Bool
  can_add_employees : Bool
  can_edit_employees : Bool
  can_delete_employees : Bool
  can_manage_users : Bool
  can_view_all_departments : Bool
  can_export_data : Bool
  can_view_reports : Bool
  can_manage_settings : Bool
  can_backup_database : Bool
  can_view_audit_logs : Bool
deriving DecidableEq

/-- `impl Default for UserPermissions` (models.rs lines 94-110). -/
def UserPermissions.default : UserPermissions :=
  { can_view_employees := true
    can_add_employees := false
    can_edit_employees := false
    can_delete_employees := false
    can_manage_users := false
    can_view_all_departments := false
    can_export_data := false
    can_view_reports := false
    can_manage_settings := false
    can_backup_database := false
    can_view_audit_logs := false }

/-- `UserPermissions::admin()` (models.rs). -/
def UserPermissions.admin : UserPermissions :=
  { can_view_employees := true
    can_add_employees := true
    can_edit_employees := true
    can_delete_employees := true
    can_manage_users := true
    can_view_all_departments := true
    can_export_data := true
    can_view_reports := true
    can_manage_settings := true
    can_backup_database := true
    can_view_audit_logs := true }

/-- `UserPermissions::hr_manager()` (models.rs). -/
def UserPermissions.hr_manager : UserPermissions :=
  { can_view_employees := true
    can_add_employees := true
    can_edit_employees := true
    can_delete_employees := true
    can_manage_users := false
    can_view_all_departments := true
    can_export_data := true
    can_view_reports := true
    can_manage_settings := false
    can_backup_database := false
    can_view_audit_logs := false }

/-- `UserPermissions::hr_staff()` (models.rs). -/
def UserPermissions.hr_staff : UserPermissions :=
  { can_view_employees := true
    can_add_employees := true
    can_edit_employees := false
    can_delete_employees := false
    can_manage_users := false
    can_view_all_departments := false
    can_export_data := false
    can_view_reports := false
    can_manage_settings := false
    can_backup_database := false
    can_view_audit_logs := false }

/-- `UserPermissions::viewer()` (models.rs). -/
def UserPermissions.viewer : UserPermissions :=
  { can_view_employees := true
    can_add_employees := false
    can_edit_employees := false
    can_delete_employees := false
    can_manage_users := false
    can_view_all_departments := false
    can_export_data := false
    can_view_reports := false
    can_manage_settings := false
    can_backup_database := false
    can_view_audit_logs := false }

/-- `UserPermissions::from_role(role)` (models.rs lines 177-185): a match
on the role string falling through to `Default::default()`. -/
def UserPermissions.from_role (role : String) : UserPermissions :=
  if role = "admin" then UserPermissions.admin
  else if role = "hr_manager" then UserPermissions.hr_manager
  else if role = "hr_staff" then UserPermissions.hr_staff
  else if role = "viewer" then UserPermissions.viewer
  else UserPermissions.default

/-- Claim C3: `UserPermissions::from_role` realises exactly the fixed
role-to-permission table of spec section 4.2 (admin: all eleven true;
hr_manager: view/add/edit/delete employees, view all departments, export
and reports true, the rest false; hr_staff: only view and add employees;
viewer: only view employees), and every role string outside the
enumeration yields the same permission set as viewer. -/
theorem from_role_matches_table :
    UserPermissions.from_role "admin" =
      { can_view_employees := true, can_add_employees := true,
        can_edit_employees := true, can_delete_employees := true,
        can_manage_users := true, can_view_all_departments := true,
        can_export_data := true, can_view_reports := true,
        can_manage_settings := true, can_backup_database := true,
        can_view_audit_logs := true } ∧
    UserPermissions.from_role "hr_manager" =
      { can_view_employees := true, can_add_employees := true,
        can_edit_employees := true, can_delete_employees := true,
        can_manage_users := false, can_view_all_departments := true,
        can_export_data := true, can_view_reports := true,
        can_manage_settings := false, can_backup_database := false,
        can_view_audit_logs := false } ∧
    UserPermissions.from_role "hr_staff" =
      { can_view_employees := true, can_add_employees := true,
        can_edit_employees := false, can_delete_employees := false,
        can_manage_users := false, can_view_all_departments := false,
        can_export_data := false, can_view_reports := false,
        can_manage_settings := false, can_backup_database := false,
        can_view_audit_logs := false } ∧
    UserPermissions.from_role "viewer" =
      { can_view_employees := true, can_add_employees := false,
        can_edit_employees := false, can_delete_employees := false,
        can_manage_users := false, can_view_all_departments := false,
        can_export_data := false, can_view_reports := false,
        can_manage_settings := false, can_backup_database := false,
        can_view_audit_logs := false } ∧
    ∀ role : String, role ≠ "admin" → role ≠ "hr_manager" →
      role ≠ "hr_staff" → role ≠ "viewer" →
      UserPermissions.from_role role = UserPermissions.viewer := by
  refine ⟨rfl, rfl, rfl, rfl, ?_⟩
  intro role h1 h2 h3 h4
  simp only [UserPermissions.from_role, if_neg h1, if_neg h2, if_neg h3, if_neg h4]
  rfl

/-- Witness for C3: the unknown-role branch evaluated at the concrete
role string "custom". -/
theorem from_role_matches_table_witness :
    UserPermissions.from_role "custom" = UserPermissions.viewer :=
  from_role_matches_table.2.2.2.2 "custom" (by decide) (by decide)
    (by decide) (by decide)

/-! ### Credential store (lib.rs lines 138-151)

`hash_password` feeds the password, the fixed salt literal "hrm_salt_"
and the password again into `std::collections::hash_map::DefaultHasher`
(SipHash-1-3 with both keys zero; `str::hash` writes the UTF-8 bytes of
the string followed by a 0xff terminator byte), reads the 64-bit digest
with `finish()` and prints it in lowercase hexadecimal. 64-bit words are
modelled as natural numbers reduced modulo 2^64. -/

/-- 2^64, the modulus of 64-bit machine arithmetic. -/
def w64 : Nat := 18446744073709551616

/-- 64-bit addition with wrap-around. -/
def add64 (a b : Nat) : Nat := (a + b) % w64

/-- 64-bit exclusive or (stays inside the word range). -/
def xor64 (a b : Nat) : Nat := (a ^^^ b) % w64

/-- 64-bit rotate left by `n` bits. -/
def rotl64 (x n : Nat) : Nat :=
  (((x % w64) <<< n) ||| ((x % w64) >>> (64 - n))) % w64

/-- The four 64-bit registers of a SipHash state. -/
structure SipState where
  v0 : Nat
  v1 : Nat
  v2 : Nat
  v3 : Nat

/-- One SipRound (the `compress!` macro of Rust std's sip.rs). -/
def sipRound (s : SipState) : SipState :=
  let v0 := add64 s.v0 s.v1
  let v1 := rotl64 s.v1 13
  let v1 := xor64 v1 v0
  let v0 := rotl64 v0 32
  let v2 := add64 s.v2 s.v3
  let v3 := rotl64 s.v3 16
  let v3 := xor64 v3 v2
  let v0 := add64 v0 v3
  let v3 := rotl64 v3 21
  let v3 := xor64 v3 v0
  let v2 := add64 v2 v1
  let v1 := rotl64 v1 17
  let v1 := xor64 v1 v2
  let v2 := rotl64 v2 32
  ⟨v0, v1, v2, v3⟩

/-- Absorb one 8-byte message word (SipHash-1-3: a single round). -/
def sipCompress (s : SipState) (m : Nat) : SipState :=
  let s := { s with v3 := xor64 s.v3 m }
  let s := sipRound s
  { s with v0 := xor64 s.v0 m }

/-- Little-endian value of a byte list. -/
def le64 : List Nat → Nat
  | [] => 0
  | b :: rest => (b % 256) + 256 * le64 rest

/-- Consume full 8-byte chunks of the message, returning the state after
all complete words together with the remaining tail bytes. -/
def sipChunks (s : SipState) : List Nat → SipState × List Nat
  | b0 :: b1 :: b2 :: b3 :: b4 :: b5 :: b6 :: b7 :: rest =>
      sipChunks (sipCompress s (le64 [b0, b1, b2, b3, b4, b5, b6, b7])) rest
  | tail => (s, tail)

/-- `finish()`: the final word packs the low byte of the total message
length into the top byte above the buffered tail bytes; finalization
xors 0xff into v2 and applies three rounds (SipHash-1-3). -/
def sipFinish (s : SipState) (tail : List Nat) (len : Nat) : Nat :=
  let b := (((len % 256) <<< 56) ||| le64 tail) % w64
  let s := sipCompress s b
  let s := { s with v2 := xor64 s.v2 0xff }
  let s := sipRound (sipRound (sipRound s))
  xor64 (xor64 s.v0 s.v1) (xor64 s.v2 s.v3)

/-- SipHash-1-3 of a byte stream with both keys zero, exactly as Rust's
`DefaultHasher::new()` followed by `write` calls and `finish()`: the
initial registers are the SipHash constants xored with zero keys, each
full 8-byte word gets one compression round, then the finalization of
`sipFinish`. -/
def sipHash13 (bytes : List Nat) : Nat :=
  let s0 : SipState :=
    ⟨0x736f6d6570736575, 0x646f72616e646f6d, 0x6c7967656e657261, 0x7465646279746573⟩
  let p := sipChunks s0 bytes
  sipFinish p.1 p.2 bytes.length

/-- UTF-8 encoding of one character (the algorithm of core's
`String.utf8EncodeChar`, with bytes as naturals). -/
def utf8Bytes (c : Char) : List Nat :=
  let v := c.toNat
  if v < 128 then [v]
  else if v < 2048 then [192 ||| (v >>> 6), 128 ||| (v &&& 63)]
  else if v < 65536 then
    [224 ||| (v >>> 12), 128 ||| ((v >>> 6) &&& 63), 128 ||| (v &&& 63)]
  else
    [240 ||| (v >>> 18), 128 ||| ((v >>> 12) &&& 63),
     128 ||| ((v >>> 6) &&& 63), 128 ||| (v &&& 63)]

/-- UTF-8 byte stream of a string (`str::as_bytes`). -/
def strBytes (s : String) : List Nat := s.data.flatMap utf8Bytes

/-- The byte stream `hash_password` feeds to the hasher:
`password.hash(h); "hrm_salt_".hash(h); password.hash(h)` where
`str::hash` writes the UTF-8 bytes followed by a 0xff terminator. -/
def passwordStream (password : String) : List Nat :=
  strBytes password ++ [255] ++ strBytes "hrm_salt_" ++ [255] ++
    strBytes password ++ [255]

/-- The 64-bit digest `hasher.finish()` returns inside `hash_password`. -/
def passwordDigest (password : String) : Nat := sipHash13 (passwordStream password)

/-- Lowercase hexadecimal rendering of a natural number, as Rust's
`format!` with the `x` format spec prints a u64. -/
def toHex (n : Nat) : String := String.mk (Nat.toDigits 16 n)

/-- `hash_password` (lib.rs lines 138-147). -/
def hash_password (password : String) : String := toHex (passwordDigest password)

/-- `verify_password` (lib.rs lines 149-151): recompute and compare. -/
def verify_password (password hash : String) : Bool :=
  hash_password password == hash

/-- Any 64-bit xor result is inside the word range. -/
theorem xor64_lt (a b : Nat) : xor64 a b < w64 :=
  Nat.mod_lt _ (by norm_num [w64])

/-- The digest is a 64-bit value. -/
theorem passwordDigest_lt (p : String) : passwordDigest p < w64 := by
  simp only [passwordDigest, sipHash13, sipFinish]
  exact xor64_lt _ _

/-- A string of n copies of the letter a; the family used to exhibit a
digest collision by counting. -/
def aString (n : Nat) : String := String.mk (List.replicate n 'a')

/-- Counterexample for C9: the mismatch half of the claim is false. The
digest is a single 64-bit value rendered in hexadecimal, so among any
2^64 + 1 pairwise distinct passwords two must share their digest, and
for such a pair p1 ≠ p2 the check `verify_password p1 (hash_password p2)`
returns true. -/
theorem verify_password_not_injective :
    ¬ (∀ p1 p2 : String, p1 ≠ p2 →
        verify_password p1 (hash_password p2) = false) := by
  intro hall
  have hcard : Fintype.card (Fin w64) < Fintype.card (Fin (w64 + 1)) := by
    rw [Fintype.card_fin, Fintype.card_fin]
    exact Nat.lt_succ_self _
  obtain ⟨i, j, hij, hfe⟩ :=
    Fintype.exists_ne_map_eq_of_card_lt
      (fun i : Fin (w64 + 1) =>
        (⟨passwordDigest (aString i.val), passwordDigest_lt _⟩ : Fin w64)) hcard
  have hdig : passwordDigest (aString i.val) = passwordDigest (aString j.val) :=
    congrArg Fin.val hfe
  have hstr : aString i.val ≠ aString j.val := by
    intro h
    apply hij
    apply Fin.ext
    have hlen := congrArg String.length h
    simpa [aString, String.length] using hlen
  have hfalse : verify_password (aString i.val) (hash_password (aString j.val)) = false :=
    hall _ _ hstr
  simp [verify_password, hash_password, hdig] at hfalse

/-- Claim C9 (amended): `verify_password(p, hash_password(p))` is true
for every non-empty password p, and `verify_password(p1, hash_password(p2))`
is false whenever the two digests differ; the original universally
quantified mismatch statement fails only on digest collisions, which
must exist because digests are 64-bit values. -/
theorem verify_password_spec :
    (∀ p : String, p ≠ "" → verify_password p (hash_password p) = true) ∧
    (∀ p1 p2 : String, hash_password p1 ≠ hash_password p2 →
        verify_password p1 (hash_password p2) = false) := by
  constructor
  · intro p _
    simp [verify_password]
  · intro p1 p2 hne
    simp [verify_password, hne]

/-- Witness for C9: both halves at concrete passwords. -/
theorem verify_password_spec_witness :
    verify_password "a" (hash_password "a") = true ∧
    verify_password "a" (hash_password "b") = false :=
  ⟨verify_password_spec.1 "a" (by decide),
   verify_password_spec.2 "a" "b" (by decide)⟩

/-! ### Data model (models.rs) and database state

The SQLite database is modelled as lists of typed rows; TEXT columns
that may be NULL are `Option String`. `CURRENT_TIMESTAMP` defaults are
drawn from a `now` field of the state. -/

/-- An employee row (models.rs `Employee`; employees table of lib.rs). -/
structure Employee where
  epf_number : String
  name_with_initials : String
  full_name : String
  dob : Option String
  police_area : Option String
  transport_route : Option String
  mobile_1 : Option String
  mobile_2 : Option String
  address : Option String
  date_of_join : Option String
  date_of_resign : Option String
  working_status : String
  marital_status : Option String
  cader : Option String
  designation : Option String
  allocation : Option String
  department : Option String
  image_path : Option String
  created_at : Option String
deriving DecidableEq

/-- The filter object of `get_employees` (models.rs `EmployeeFilters`). -/
structure EmployeeFilters where
  epf_number : String
  department : String
  transport_route : String
  working_status : String
deriving DecidableEq

/-- A users-table row. The permission columns are grouped as the
`UserPermissions` record, matching models.rs `User`.

Modelled from the spec: init_db (lib.rs lines 66-129) creates and
migrates every users column except `can_backup_database` and
`can_view_audit_logs`, which all the queries of auth_commands.rs
reference; per spec sections 3 and 6 (permission set stored as columns
on User, additive column migrations with default values) the schema is
modelled as having both columns with default 0 (false), like every
other non-view permission column. -/
structure UserRow where
  id : Int
  username : String
  password_hash : String
  full_name : String
  role : String
  department_access : Option String
  is_active : Bool
  permissions : UserPermissions
  created_at : Option String
  last_login : Option String
deriving DecidableEq

/-- The in-memory session (models.rs `UserSession`). -/
structure UserSession where
  user_id : Int
  username : String
  full_name : String
  role : String
  department_access : Option String
  permissions : UserPermissions
deriving DecidableEq

/-- An audit_logs row (models.rs `AuditLog`). -/
structure AuditLog where
  id : Int
  user_id : Option Int
  username : String
  action : String
  entity_type : String
  entity_id : Option String
  old_value : Option String
  new_value : Option String
  details : Option String
  created_at : Option String
deriving DecidableEq

/-- The sanitized user record returned by `get_all_users`
(models.rs `UserInfo`; no password hash). -/
structure UserInfo where
  id : Int
  username : String
  full_name : String
  role : String
  department_access : Option String
  is_active : Bool
  permissions : Option UserPermissions
  created_at : Option String
  last_login : Option String
deriving DecidableEq

/-- The whole application state: the three database tables, the
process-wide session slot (`CurrentUser` of lib.rs), the auto-increment
counters, and the clock value SQLite would use for
`CURRENT_TIMESTAMP`. -/
structure AppState where
  employees : List Employee
  users : List UserRow
  audit_logs : List AuditLog
  session : Option UserSession
  next_user_id : Int
  next_audit_id : Int
  now : String
deriving DecidableEq

/-! ### JSON snapshots (serde_json::to_string on `Employee`) -/

/-- serde_json escaping of one character inside a string literal:
quote and backslash get a backslash escape, the named control
characters get their short escapes, other control characters are
written as a \u00XX sequence with lowercase hex digits, everything
else is copied verbatim. -/
def jsonEscapeChar (c : Char) : String :=
  if c = '"' then "\\\""
  else if c = '\\' then "\\\\"
  else if c = '\x08' then "\\b"
  else if c = '\x09' then "\\t"
  else if c = '\x0a' then "\\n"
  else if c = '\x0c' then "\\f"
  else if c = '\x0d' then "\\r"
  else if c.toNat < 32 then
    "\\u00" ++ String.singleton (Nat.digitChar (c.toNat / 16)) ++
      String.singleton (Nat.digitChar (c.toNat % 16))
  else String.singleton c

/-- A JSON string literal. -/
def jsonStr (s : String) : String :=
  "\"" ++ String.join (s.data.map jsonEscapeChar) ++ "\""

/-- An optional string serializes as the literal null or as a string. -/
def jsonOptStr : Option String → String
  | none => "null"
  | some s => jsonStr s

/-- `serde_json::to_string(&employee)`: one object with the fields in
struct declaration order (`created_at` is only skipped for
deserialization, so it is serialized). -/
def employeeToJson (e : Employee) : String :=
  "\x7b\"epf_number\":" ++ jsonStr e.epf_number ++
  ",\"name_with_initials\":" ++ jsonStr e.name_with_initials ++
  ",\"full_name\":" ++ jsonStr e.full_name ++
  ",\"dob\":" ++ jsonOptStr e.dob ++
  ",\"police_area\":" ++ jsonOptStr e.police_area ++
  ",\"transport_route\":" ++ jsonOptStr e.transport_route ++
  ",\"mobile_1\":" ++ jsonOptStr e.mobile_1 ++
  ",\"mobile_2\":" ++ jsonOptStr e.mobile_2 ++
  ",\"address\":" ++ jsonOptStr e.address ++
  ",\"date_of_join\":" ++ jsonOptStr e.date_of_join ++
  ",\"date_of_resign\":" ++ jsonOptStr e.date_of_resign ++
  ",\"working_status\":" ++ jsonStr e.working_status ++
  ",\"marital_status\":" ++ jsonOptStr e.marital_status ++
  ",\"cader\":" ++ jsonOptStr e.cader ++
  ",\"designation\":" ++ jsonOptStr e.designation ++
  ",\"allocation\":" ++ jsonOptStr e.allocation ++
  ",\"department\":" ++ jsonOptStr e.department ++
  ",\"image_path\":" ++ jsonOptStr e.image_path ++
  ",\"created_at\":" ++ jsonOptStr e.created_at ++ "\x7d"

/-! ### Audit logging and employee commands (commands.rs) -/

/-- `log_audit_action` (commands.rs lines 765-790): append one row to
audit_logs with the auto-assigned id and server timestamp. The insert's
result is discarded in the source (`let _ =`), so it never fails the
caller; in the model the append always happens. -/
def log_audit_action (st : AppState) (user_id : Option Int)
    (username action entity_type : String) (entity_id old_value new_value details : Option String) :
    AppState :=
  { st with
    audit_logs := st.audit_logs ++
      [{ id := st.next_audit_id, user_id, username, action, entity_type,
         entity_id, old_value, new_value, details, created_at := some st.now }]
    next_audit_id := st.next_audit_id + 1 }

/-- The audit attribution each employee command computes from the
session slot: the session's user id and username, or no id and the
literal username "system" when no session is active. -/
def auditIdentity : Option UserSession → Option Int × String
  | some u => (some u.user_id, u.username)
  | none => (none, "system")

/-- `SELECT ... FROM employees WHERE epf_number = ?1` as used by
update_employee and delete_employee (first row, if any). -/
def findEmployee (rows : List Employee) (epf : String) : Option Employee :=
  rows.find? (fun e => e.epf_number == epf)

/-- `create_employee` (commands.rs lines 128-188): INSERT a full row
(the created_at column is not named, so it takes its
CURRENT_TIMESTAMP default); a primary-key conflict aborts with the
SQLite unique-constraint error before anything else happens; on
success one CREATE audit entry is appended. There is no session or
permission check: the session is read only for audit attribution. -/
def create_employee (st : AppState) (employee : Employee) :
    Except String Unit × AppState :=
  if st.employees.any (fun r => r.epf_number == employee.epf_number) then
    (Except.error "UNIQUE constraint failed: employees.epf_number", st)
  else
    let stored := { employee with created_at := some st.now }
    let idu := auditIdentity st.session
    let st1 := { st with employees := st.employees ++ [stored] }
    let st2 := log_audit_action st1 idu.1 idu.2 "CREATE" "EMPLOYEE"
      (some employee.epf_number) none (some (employeeToJson employee))
      (some ("Created employee: " ++ employee.name_with_initials ++
        " (" ++ employee.epf_number ++ ")"))
    (Except.ok (), st2)

/-- `update_employee` (commands.rs lines 190-285): read the old row for
the audit snapshot, UPDATE every column except the key and created_at
(a missing key updates zero rows and still succeeds), then append one
UPDATE audit entry. No session or permission check. -/
def update_employee (st : AppState) (employee : Employee) :
    Except String Unit × AppState :=
  let old := findEmployee st.employees employee.epf_number
  let updated := st.employees.map (fun r =>
    if r.epf_number == employee.epf_number then
      { employee with epf_number := r.epf_number, created_at := r.created_at }
    else r)
  let idu := auditIdentity st.session
  let st1 := { st with employees := updated }
  let st2 := log_audit_action st1 idu.1 idu.2 "UPDATE" "EMPLOYEE"
    (some employee.epf_number) (old.map employeeToJson)
    (some (employeeToJson employee))
    (some ("Updated employee: " ++ employee.name_with_initials ++
      " (" ++ employee.epf_number ++ ")"))
  (Except.ok (), st2)

/-- `delete_employee` (commands.rs lines 287-354): read the old row for
the audit snapshot, DELETE by key (a missing key is a no-op), then
append one DELETE audit entry whose new_value is null. No session or
permission check. -/
def delete_employee (st : AppState) (epf_number : String) :
    Except String Unit × AppState :=
  let old := findEmployee st.employees epf_number
  let idu := auditIdentity st.session
  let employee_name := (old.map (fun e => e.name_with_initials)).getD ""
  let st1 := { st with employees := st.employees.filter (fun r => !(r.epf_number == epf_number)) }
  let st2 := log_audit_action st1 idu.1 idu.2 "DELETE" "EMPLOYEE"
    (some epf_number) (old.map employeeToJson) none
    (some ("Deleted employee: " ++ employee_name ++ " (" ++ epf_number ++ ")"))
  (Except.ok (), st2)

/-! ### get_employees and its filter composition (commands.rs 14-85) -/

/-- ASCII-only lower casing, the folding SQLite's default LIKE uses. -/
def asciiLower (c : Char) : Char :=
  if 'A' ≤ c ∧ c ≤ 'Z' then Char.ofNat (c.toNat + 32) else c

/-- SQLite LIKE pattern matching over character lists: percent matches
any run, underscore any single character, and plain characters compare
ASCII-case-insensitively. -/
def likeMatch : List Char → List Char → Bool
  | '%' :: ps, [] => likeMatch ps []
  | '%' :: ps, c :: ts => likeMatch ps (c :: ts) || likeMatch ('%' :: ps) ts
  | '_' :: _, [] => false
  | '_' :: ps, _ :: ts => likeMatch ps ts
  | _ :: _, [] => false
  | p :: ps, c :: ts => (asciiLower p == asciiLower c) && likeMatch ps ts
  | [], [] => true
  | [], _ :: _ => false
termination_by ps ts => (ps.length, ts.length)

/-- The predicate `epf_number LIKE ?` receives, with the parameter
`format!` wraps in percent signs. -/
def epfLikePred (value : String) (e : Employee) : Bool :=
  likeMatch ("%" ++ value ++ "%").data e.epf_number.data

/-- The WHERE clause of get_employees as the source assembles it: one
predicate appended per non-empty filter field (LIKE on epf_number,
equality on department, transport_route and working_status; a NULL
column never equals a parameter). -/
def buildFilterPreds (f : EmployeeFilters) : List (Employee → Bool) :=
  (if f.epf_number.isEmpty then [] else [epfLikePred f.epf_number]) ++
  (if f.department.isEmpty then [] else [fun e => e.department == some f.department]) ++
  (if f.transport_route.isEmpty then [] else [fun e => e.transport_route == some f.transport_route]) ++
  (if f.working_status.isEmpty then [] else [fun e => e.working_status == f.working_status])

/-- ORDER BY epf_number ASC. -/
def epfLe (a b : Employee) : Prop := a.epf_number ≤ b.epf_number

instance : DecidableRel epfLe := fun a b =>
  inferInstanceAs (Decidable (a.epf_number ≤ b.epf_number))

instance : IsTotal Employee epfLe := ⟨fun a b => le_total a.epf_number b.epf_number⟩

instance : IsTrans Employee epfLe := ⟨fun _ _ _ h1 h2 => le_trans h1 h2⟩

/-- `get_employees` (commands.rs lines 14-85): the rows passing every
assembled predicate, ordered by epf_number ascending. Reads nothing
else of the state and changes nothing. -/
def get_employees (st : AppState) (filters : EmployeeFilters) : List Employee :=
  List.insertionSort epfLe
    (st.employees.filter (fun e => (buildFilterPreds filters).all (fun p => p e)))

/-! ### Auth commands (auth_commands.rs) -/

/-- models.rs `LoginRequest`. -/
structure LoginRequest where
  username : String
  password : String
deriving DecidableEq

/-- models.rs `CreateUserRequest`. -/
structure CreateUserRequest where
  username : String
  password : String
  full_name : String
  role : String
  department_access : Option String
  permissions : Option UserPermissions
deriving DecidableEq

/-- `SELECT ... FROM users WHERE username = ?1` (first row, if any;
the username column is UNIQUE). -/
def findUserByName (rows : List UserRow) (username : String) : Option UserRow :=
  rows.find? (fun u => u.username == username)

/-- `login` (auth_commands.rs lines 5-95): look the username up; a
missing row reports invalid credentials; an inactive account is
rejected before the password hash is ever compared; otherwise the
password is verified, last_login is set to the current timestamp and
the session slot is filled with a denormalized copy of the row. -/
def login (st : AppState) (request : LoginRequest) :
    Except String UserSession × AppState :=
  match findUserByName st.users request.username with
  | none => (Except.error "Invalid username or password", st)
  | some u =>
    if !u.is_active then
      (Except.error "Account is deactivated. Please contact administrator.", st)
    else if !verify_password request.password u.password_hash then
      (Except.error "Invalid username or password", st)
    else
      let users1 := st.users.map (fun r =>
        if r.id == u.id then { r with last_login := some st.now } else r)
      let session : UserSession :=
        { user_id := u.id, username := u.username, full_name := u.full_name,
          role := u.role, department_access := u.department_access,
          permissions := u.permissions }
      (Except.ok session, { st with users := users1, session := some session })

/-- `logout` (auth_commands.rs lines 97-102): clear the session slot. -/
def logout (st : AppState) : Except String Unit × AppState :=
  (Except.ok (), { st with session := none })

/-- The session gate shared by the user-management commands: proceed
only when a session exists and it holds can_manage_users. -/
def sessionCanManageUsers : Option UserSession → Bool
  | some s => s.permissions.can_manage_users
  | none => false

/-- `create_user` (auth_commands.rs lines 110-169): gate on
can_manage_users; validate the role string against the fixed list;
derive permissions from the role unless the request overrides them;
INSERT the row. The INSERT names every permission column except
can_view_audit_logs, so that column keeps its schema default (false);
is_active likewise defaults to 1 and created_at to CURRENT_TIMESTAMP.
A duplicate username maps the unique-constraint failure to a fixed
message. -/
def create_user (st : AppState) (request : CreateUserRequest) :
    Except String Unit × AppState :=
  if !sessionCanManageUsers st.session then
    (Except.error "Permission denied. Only administrators can create users.", st)
  else if !(["admin", "hr_manager", "hr_staff", "viewer", "custom"].contains request.role) then
    (Except.error "Invalid role specified", st)
  else
    let password_hash := hash_password request.password
    let permissions := request.permissions.getD (UserPermissions.from_role request.role)
    if st.users.any (fun u => u.username == request.username) then
      (Except.error "Username already exists", st)
    else
      let row : UserRow :=
        { id := st.next_user_id, username := request.username, password_hash,
          full_name := request.full_name, role := request.role,
          department_access := request.department_access, is_active := true,
          permissions := { permissions with can_view_audit_logs := false },
          created_at := some st.now, last_login := none }
      (Except.ok (), { st with users := st.users ++ [row],
                               next_user_id := st.next_user_id + 1 })

/-- ORDER BY id on users. -/
def userIdLe (a b : UserRow) : Prop := a.id ≤ b.id

instance : DecidableRel userIdLe := fun a b =>
  inferInstanceAs (Decidable (a.id ≤ b.id))

instance : IsTotal UserRow userIdLe := ⟨fun a b => le_total a.id b.id⟩

instance : IsTrans UserRow userIdLe := ⟨fun _ _ _ h1 h2 => le_trans h1 h2⟩

/-- The projection get_all_users applies to each row (models.rs
`UserInfo`: everything but the password hash, permissions wrapped in
Some). -/
def toUserInfo (u : UserRow) : UserInfo :=
  { id := u.id, username := u.username, full_name := u.full_name,
    role := u.role, department_access := u.department_access,
    is_active := u.is_active, permissions := some u.permissions,
    created_at := u.created_at, last_login := u.last_login }

/-- `get_all_users` (auth_commands.rs lines 171-227): gate on
can_manage_users, then every users row ordered by id, sanitized. -/
def get_all_users (st : AppState) : Except String (List UserInfo) × AppState :=
  if !sessionCanManageUsers st.session then
    (Except.error "Permission denied", st)
  else
    (Except.ok ((List.insertionSort userIdLe st.users).map toUserInfo), st)

/-- `delete_user` (auth_commands.rs lines 279-304): gate on
can_manage_users, reject deleting the session's own user id, then
DELETE by id (a missing id is a no-op). -/
def delete_user (st : AppState) (user_id : Int) :
    Except String Unit × AppState :=
  match st.session with
  | some s =>
    if s.permissions.can_manage_users then
      if s.user_id = user_id then
        (Except.error "Cannot delete your own account", st)
      else
        (Except.ok (), { st with users := st.users.filter (fun u => !(u.id == user_id)) })
    else (Except.error "Permission denied", st)
  | none => (Except.error "Permission denied", st)

/-! ### Concrete sample data for witnesses and counterexamples -/

/-- A sample employee record. -/
def sampleEmployee : Employee :=
  { epf_number := "E001", name_with_initials := "A. Perera",
    full_name := "Anura Perera", dob := none, police_area := none,
    transport_route := some "R1", mobile_1 := none, mobile_2 := none,
    address := none, date_of_join := some "2020-01-01", date_of_resign := none,
    working_status := "active", marital_status := none, cader := none,
    designation := none, allocation := none, department := some "HR",
    image_path := none, created_at := some "2020-01-01 08:00:00" }

/-- A second sample employee under another key. -/
def sampleEmployee2 : Employee :=
  { sampleEmployee with
      epf_number := "E002"
      name_with_initials := "B. Silva"
      full_name := "Bimal Silva"
      department := some "Finance" }

/-- The administrator session produced by logging in as the bootstrap
admin user. -/
def adminSession : UserSession :=
  { user_id := 1, username := "admin", full_name := "System Administrator",
    role := "admin", department_access := none,
    permissions := UserPermissions.admin }

/-- The bootstrap admin users row. -/
def adminRow : UserRow :=
  { id := 1, username := "admin", password_hash := "0", full_name := "System Administrator",
    role := "admin", department_access := none, is_active := true,
    permissions := UserPermissions.admin,
    created_at := some "2020-01-01 08:00:00", last_login := none }

/-- A state with no session and one employee on file. -/
def baseState : AppState :=
  { employees := [sampleEmployee], users := [adminRow], audit_logs := [],
    session := none, next_user_id := 2, next_audit_id := 1,
    now := "2026-01-01 09:00:00" }

/-- The same state with the admin logged in. -/
def adminState : AppState := { baseState with session := some adminSession }

/-! ### Claims on the employee commands -/

/-- Claim C6: creating an employee whose epf_number already exists
fails with the primary-key violation (surfaced as the SQLite
unique-constraint message) and the state — in particular the record
stored under that key — is untouched; no audit entry is written
either, since the INSERT aborts first. -/
theorem create_employee_duplicate_key (st : AppState) (e : Employee)
    (h : (st.employees.any fun r => r.epf_number == e.epf_number) = true) :
    create_employee st e =
      (Except.error "UNIQUE constraint failed: employees.epf_number", st) := by
  simp [create_employee, h]

/-- Witness for C6: re-creating the already-present key E001. -/
theorem create_employee_duplicate_key_witness :
    create_employee baseState
        { sampleEmployee with full_name := "Someone Else" } =
      (Except.error "UNIQUE constraint failed: employees.epf_number", baseState) :=
  create_employee_duplicate_key baseState _ (by decide)

/-- Claim C7: every successful create, update or delete of an employee
appends exactly one audit entry with entity_type EMPLOYEE and
entity_id the epf_number; create and update carry the JSON snapshot of
the supplied record as new_value, update and delete carry the JSON
snapshot of the prior row (when one exists) as old_value, and delete
has null new_value. -/
theorem employee_mutations_audit_trail (st : AppState) (e : Employee) (epf : String)
    (hc : (st.employees.any fun r => r.epf_number == e.epf_number) = false) :
    ((create_employee st e).1 = Except.ok () ∧
      (create_employee st e).2.audit_logs = st.audit_logs ++
        [{ id := st.next_audit_id, user_id := (auditIdentity st.session).1,
           username := (auditIdentity st.session).2, action := "CREATE",
           entity_type := "EMPLOYEE", entity_id := some e.epf_number,
           old_value := none, new_value := some (employeeToJson e),
           details := some ("Created employee: " ++ e.name_with_initials ++
             " (" ++ e.epf_number ++ ")"),
           created_at := some st.now }]) ∧
    ((update_employee st e).1 = Except.ok () ∧
      (update_employee st e).2.audit_logs = st.audit_logs ++
        [{ id := st.next_audit_id, user_id := (auditIdentity st.session).1,
           username := (auditIdentity st.session).2, action := "UPDATE",
           entity_type := "EMPLOYEE", entity_id := some e.epf_number,
           old_value := (findEmployee st.employees e.epf_number).map employeeToJson,
           new_value := some (employeeToJson e),
           details := some ("Updated employee: " ++ e.name_with_initials ++
             " (" ++ e.epf_number ++ ")"),
           created_at := some st.now }]) ∧
    ((delete_employee st epf).1 = Except.ok () ∧
      (delete_employee st epf).2.audit_logs = st.audit_logs ++
        [{ id := st.next_audit_id, user_id := (auditIdentity st.session).1,
           username := (auditIdentity st.session).2, action := "DELETE",
           entity_type := "EMPLOYEE", entity_id := some epf,
           old_value := (findEmployee st.employees epf).map employeeToJson,
           new_value := none,
           details := some ("Deleted employee: " ++
             ((findEmployee st.employees epf).map
               (fun o => o.name_with_initials)).getD "" ++ " (" ++ epf ++ ")"),
           created_at := some st.now }]) := by
  refine ⟨⟨?_, ?_⟩, ⟨?_, ?_⟩, ?_, ?_⟩ <;>
    simp [create_employee, update_employee, delete_employee, log_audit_action, hc]

/-- Witness for C7: the three operations on the sample state. -/
theorem employee_mutations_audit_trail_witness :
    ((create_employee adminState sampleEmployee2).1 = Except.ok () ∧
      (create_employee adminState sampleEmployee2).2.audit_logs =
        adminState.audit_logs ++
        [{ id := adminState.next_audit_id,
           user_id := (auditIdentity adminState.session).1,
           username := (auditIdentity adminState.session).2, action := "CREATE",
           entity_type := "EMPLOYEE", entity_id := some sampleEmployee2.epf_number,
           old_value := none, new_value := some (employeeToJson sampleEmployee2),
           details := some ("Created employee: " ++ sampleEmployee2.name_with_initials ++
             " (" ++ sampleEmployee2.epf_number ++ ")"),
           created_at := some adminState.now }]) ∧
    ((update_employee adminState sampleEmployee2).1 = Except.ok () ∧
      (update_employee adminState sampleEmployee2).2.audit_logs =
        adminState.audit_logs ++
        [{ id := adminState.next_audit_id,
           user_id := (auditIdentity adminState.session).1,
           username := (auditIdentity adminState.session).2, action := "UPDATE",
           entity_type := "EMPLOYEE", entity_id := some sampleEmployee2.epf_number,
           old_value := (findEmployee adminState.employees sampleEmployee2.epf_number).map employeeToJson,
           new_value := some (employeeToJson sampleEmployee2),
           details := some ("Updated employee: " ++ sampleEmployee2.name_with_initials ++
             " (" ++ sampleEmployee2.epf_number ++ ")"),
           created_at := some adminState.now }]) ∧
    ((delete_employee adminState "E001").1 = Except.ok () ∧
      (delete_employee adminState "E001").2.audit_logs =
        adminState.audit_logs ++
        [{ id := adminState.next_audit_id,
           user_id := (auditIdentity adminState.session).1,
           username := (auditIdentity adminState.session).2, action := "DELETE",
           entity_type := "EMPLOYEE", entity_id := some "E001",
           old_value := (findEmployee adminState.employees "E001").map employeeToJson,
           new_value := none,
           details := some ("Deleted employee: " ++
             ((findEmployee adminState.employees "E001").map
               (fun o => o.name_with_initials)).getD "" ++ " (" ++ "E001" ++ ")"),
           created_at := some adminState.now }]) :=
  employee_mutations_audit_trail adminState sampleEmployee2 "E001" (by decide)

/-- Counterexample for C1: with no active session create_employee does
not fail with an Unauthenticated error — it succeeds and the employees
table changes. -/
theorem create_employee_no_session_succeeds :
    (create_employee baseState sampleEmployee2).1 = Except.ok () ∧
    (create_employee baseState sampleEmployee2).2.employees ≠ baseState.employees := by
  constructor
  · rfl
  · decide

/-- Claim C1 (amended): create_employee, update_employee and
delete_employee perform no session or permission check at all. With no
active session each still mutates the employees table (create succeeds
whenever the key is fresh; update and delete always succeed) and the
single audit entry is attributed to the literal username "system" with
a null user id. -/
theorem employee_mutations_have_no_auth_gate (st : AppState) (e : Employee)
    (epf : String) (hs : st.session = none)
    (hc : (st.employees.any fun r => r.epf_number == e.epf_number) = false) :
    ((create_employee st e).1 = Except.ok () ∧
      (create_employee st e).2.employees =
        st.employees ++ [{ e with created_at := some st.now }] ∧
      ((create_employee st e).2.audit_logs.getLast?).map
        (fun l => (l.user_id, l.username)) = some (none, "system")) ∧
    ((update_employee st e).1 = Except.ok () ∧
      ((update_employee st e).2.audit_logs.getLast?).map
        (fun l => (l.user_id, l.username)) = some (none, "system")) ∧
    ((delete_employee st epf).1 = Except.ok () ∧
      (delete_employee st epf).2.employees =
        st.employees.filter (fun r => !(r.epf_number == epf)) ∧
      ((delete_employee st epf).2.audit_logs.getLast?).map
        (fun l => (l.user_id, l.username)) = some (none, "system")) := by
  refine ⟨⟨?_, ?_, ?_⟩, ⟨?_, ?_⟩, ?_, ?_, ?_⟩ <;>
    simp [create_employee, update_employee, delete_employee,
      log_audit_action, auditIdentity, hs, hc]

/-- Witness for C1's amended statement at the sample state. -/
theorem employee_mutations_have_no_auth_gate_witness :
    ((create_employee baseState sampleEmployee2).1 = Except.ok () ∧
      (create_employee baseState sampleEmployee2).2.employees =
        baseState.employees ++ [{ sampleEmployee2 with created_at := some baseState.now }] ∧
      ((create_employee baseState sampleEmployee2).2.audit_logs.getLast?).map
        (fun l => (l.user_id, l.username)) = some (none, "system")) ∧
    ((update_employee baseState sampleEmployee2).1 = Except.ok () ∧
      ((update_employee baseState sampleEmployee2).2.audit_logs.getLast?).map
        (fun l => (l.user_id, l.username)) = some (none, "system")) ∧
    ((delete_employee baseState "E001").1 = Except.ok () ∧
      (delete_employee baseState "E001").2.employees =
        baseState.employees.filter (fun r => !(r.epf_number == "E001")) ∧
      ((delete_employee baseState "E001").2.audit_logs.getLast?).map
        (fun l => (l.user_id, l.username)) = some (none, "system")) :=
  employee_mutations_have_no_auth_gate baseState sampleEmployee2 "E001" rfl (by decide)

/-! ### Claim C8: get_employees -/

/-- The per-row meaning the spec ascribes to the filter object: one
conjunct per non-empty field — LIKE-with-percent-wrapping on
epf_number, exact equality on the three categorical fields — and empty
fields constrain nothing. -/
def matchesFilters (f : EmployeeFilters) (e : Employee) : Bool :=
  (f.epf_number.isEmpty || epfLikePred f.epf_number e) &&
  ((f.department.isEmpty || e.department == some f.department) &&
   ((f.transport_route.isEmpty || e.transport_route == some f.transport_route) &&
    (f.working_status.isEmpty || e.working_status == f.working_status)))

/-- The predicate list get_employees assembles evaluates, on every row,
to the conjunction of the per-field predicates. -/
theorem buildFilterPreds_all (f : EmployeeFilters) (e : Employee) :
    (buildFilterPreds f).all (fun p => p e) = matchesFilters f e := by
  unfold buildFilterPreds matchesFilters
  cases h1 : f.epf_number.isEmpty <;> cases h2 : f.department.isEmpty <;>
    cases h3 : f.transport_route.isEmpty <;> cases h4 : f.working_status.isEmpty <;>
    simp

/-- Claim C8: get_employees returns, sorted by epf_number ascending,
exactly the rows satisfying the conjunction of one predicate per
non-empty filter field (substring-style LIKE on epf_number, equality
on department, transport_route and working_status); empty fields add
no predicate, and with every field empty it returns all rows. -/
theorem get_employees_spec (st : AppState) (f : EmployeeFilters) :
    List.Sorted epfLe (get_employees st f) ∧
    (get_employees st f).Perm (st.employees.filter (matchesFilters f)) ∧
    (f.epf_number = "" → f.department = "" → f.transport_route = "" →
      f.working_status = "" → (get_employees st f).Perm st.employees) := by
  have hfilter : st.employees.filter (fun e => (buildFilterPreds f).all (fun p => p e)) =
      st.employees.filter (matchesFilters f) :=
    List.filter_congr (fun e _ => buildFilterPreds_all f e)
  refine ⟨List.sorted_insertionSort _ _, ?_, ?_⟩
  · unfold get_employees
    rw [hfilter]
    exact List.perm_insertionSort _ _
  · intro h1 h2 h3 h4
    unfold get_employees
    rw [hfilter]
    have hall : st.employees.filter (matchesFilters f) = st.employees := by
      have : ∀ e ∈ st.employees, matchesFilters f e = true := by
        intro e _
        simp [matchesFilters, h1, h2, h3, h4]
        exact ⟨Or.inl rfl, Or.inl rfl, Or.inl rfl, Or.inl rfl⟩
      simpa using List.filter_congr (fun e he => this e he) |>.trans (List.filter_true _)
    rw [hall]
    exact List.perm_insertionSort _ _

/-- Witness for C8: the all-empty filter on the sample state returns a
permutation of all rows. -/
theorem get_employees_spec_witness :
    (get_employees baseState
        { epf_number := "", department := "", transport_route := "", working_status := "" }).Perm
      baseState.employees :=
  (get_employees_spec baseState
    { epf_number := "", department := "", transport_route := "", working_status := "" }).2.2
    rfl rfl rfl rfl

/-! ### Claims on the auth commands -/

/-- Claim C5: create_user called with no active session, or with a
session lacking can_manage_users, returns the permission-denied error
and leaves the whole state — in particular the users table —
untouched. -/
theorem create_user_denied_without_permission (st : AppState) (req : CreateUserRequest)
    (h : st.session = none ∨
      ∃ s, st.session = some s ∧ s.permissions.can_manage_users = false) :
    create_user st req =
      (Except.error "Permission denied. Only administrators can create users.", st) := by
  have hg : sessionCanManageUsers st.session = false := by
    rcases h with h | ⟨s, hs, hp⟩
    · simp [sessionCanManageUsers, h]
    · simp [sessionCanManageUsers, hs, hp]
  simp [create_user, hg]

/-- A sample user-creation request. -/
def staffRequest : CreateUserRequest :=
  { username := "clerk", password := "pw1", full_name := "Clerk One",
    role := "hr_staff", department_access := none, permissions := none }

/-- Witness for C5: with no session active the request is denied and
the state is unchanged. -/
theorem create_user_denied_without_permission_witness :
    create_user baseState staffRequest =
      (Except.error "Permission denied. Only administrators can create users.",
        baseState) :=
  create_user_denied_without_permission baseState staffRequest (Or.inl rfl)

/-- Claim C4: delete_user aimed at the calling session's own user id
always fails and leaves the users table unchanged, whatever the
session's permission level; whereas with can_manage_users the deletion
of any other id succeeds. -/
theorem delete_user_self_guard (st : AppState) (s : UserSession) (user_id : Int)
    (hs : st.session = some s) :
    (s.user_id = user_id →
      ∃ msg, delete_user st user_id = (Except.error msg, st)) ∧
    (s.permissions.can_manage_users = true → s.user_id ≠ user_id →
      (delete_user st user_id).1 = Except.ok ()) := by
  constructor
  · intro he
    cases hcm : s.permissions.can_manage_users
    · exact ⟨"Permission denied", by simp [delete_user, hs, hcm]⟩
    · exact ⟨"Cannot delete your own account", by simp [delete_user, hs, hcm, he]⟩
  · intro hcm hne
    simp [delete_user, hs, hcm, hne]

/-- Witness for C4: the admin session (user id 1) cannot delete user 1
but can delete user 99. -/
theorem delete_user_self_guard_witness :
    (∃ msg, delete_user adminState 1 = (Except.error msg, adminState)) ∧
    (delete_user adminState 99).1 = Except.ok () :=
  ⟨(delete_user_self_guard adminState adminSession 1 rfl).1 rfl,
   (delete_user_self_guard adminState adminSession 99 rfl).2 rfl (by decide)⟩

/-- Claim C10: login for an existing username whose account is
deactivated fails with the deactivation error and returns the state
unchanged — the session slot keeps its previous value (None) and
last_login is untouched. The equation holds for every request
password and every stored hash, so the password comparison can play
no part in the outcome. -/
theorem login_inactive_account_rejected (st : AppState) (req : LoginRequest) (u : UserRow)
    (hf : findUserByName st.users req.username = some u)
    (hi : u.is_active = false) :
    login st req =
      (Except.error "Account is deactivated. Please contact administrator.", st) := by
  simp [login, hf, hi]

/-- A deactivated user row holding the correct hash of the password
the witness supplies. -/
def inactiveRow : UserRow :=
  { id := 2, username := "bob", password_hash := hash_password "pw9",
    full_name := "Bob B.", role := "viewer", department_access := none,
    is_active := false, permissions := UserPermissions.viewer,
    created_at := some "2021-01-01 08:00:00", last_login := none }

/-- A state holding the deactivated user and no session. -/
def inactiveState : AppState := { baseState with users := [adminRow, inactiveRow] }

/-- Witness for C10: logging in as the deactivated user with the
correct password still fails and changes nothing. -/
theorem login_inactive_account_rejected_witness :
    login inactiveState { username := "bob", password := "pw9" } =
      (Except.error "Account is deactivated. Please contact administrator.",
        inactiveState) :=
  login_inactive_account_rejected inactiveState
    { username := "bob", password := "pw9" } inactiveRow rfl rfl

/-- The explicit permission override of claim C2's failing input: the
full-capability set, in particular can_view_audit_logs = true, on a
user declared as a mere viewer. -/
def overrideRequest : CreateUserRequest :=
  { username := "poweruser", password := "pw2", full_name := "Power User",
    role := "viewer", department_access := none,
    permissions := some UserPermissions.admin }

/-- The row create_user actually stores for that request: ten
capabilities copied from the override, but can_view_audit_logs forced
to the column default false because the INSERT omits that column. -/
def overrideStoredRow : UserRow :=
  { id := 2, username := "poweruser", password_hash := hash_password "pw2",
    full_name := "Power User", role := "viewer", department_access := none,
    is_active := true,
    permissions := { UserPermissions.admin with can_view_audit_logs := false },
    created_at := some adminState.now, last_login := none }

/-- Claim C2 fails on the code: create_user accepts the explicit
override (even though it diverges from the viewer role's derived set)
and succeeds, but the permission set get_all_users later returns
differs from the override — can_view_audit_logs comes back false
because create_user's INSERT names every permission column except
that one. -/
theorem create_user_override_loses_audit_flag :
    (create_user adminState overrideRequest).1 = Except.ok () ∧
    (get_all_users (create_user adminState overrideRequest).2).1 =
      Except.ok [toUserInfo adminRow, toUserInfo overrideStoredRow] ∧
    overrideStoredRow.permissions ≠ UserPermissions.admin := by
  exact ⟨rfl, rfl, by decide⟩

end HRM
